import Mathlib

/-!
Shallow embedding of the ORCID synchronization engine of
`modules/miscutil/lib/orcidutils.py` (Invenio), together with theorems
settling the specification claims about it.

External collaborators (MARC record access via `record_get_field_value` /
`record_get_field_instances`, `get_doi_for_paper`, `convert_simple_date_to_array`,
XML encoding via `encode_for_jinja_and_xml`, the HTTP layer, the bibtask log)
are modelled as inputs: a record is represented by the values those
collaborators return for it, HTTP responses are explicit inputs, and the XML
encoder is an arbitrary function parameter `encode`.
-/

namespace Orcid

/-- `ORCID_SINGLE_REQUEST_WORKS = 1` from the source: the batch size used by
`_get_orcid_dictionaries`. -/
def ORCID_SINGLE_REQUEST_WORKS : Nat := 1

/-- `LANGUAGE_MAP` from the source: maps a lowercase language name to its
ISO 639-1 code, as an association list (the Python dict has unique keys). -/
def LANGUAGE_MAP : List (String × String) :=
  [("bulgarian", "bg"), ("chinese", "zh"), ("czech", "cs"), ("dutch", "nl"),
   ("english", "en"), ("esperanto", "eo"), ("finnish", "fi"), ("french", "fr"),
   ("german", "de"), ("greek", "el"), ("hebrew", "he"), ("hungarian", "hu"),
   ("indonesian", "id"), ("italian", "it"), ("japanese", "ja"),
   ("korean", "ko"), ("latin", "la"), ("norwegian", "no"), ("persian", "fa"),
   ("polish", "pl"), ("portuguese", "pt"), ("romanian", "ro"),
   ("russian", "ru"), ("slovak", "sk"), ("spanish", "es"), ("swedish", "sv"),
   ("turkish", "tr"), ("ukrainian", "uk")]

/-- `dict.get k` on an association list with unique keys: first match. -/
def assocGet (m : List (String × String)) (k : String) : Option String :=
  (m.find? (fun p => p.1 = k)).map Prod.snd

/-- Python `str.lower()` as used on the ASCII field values of this module
(ASCII case folding, character by character). -/
def pyLower (s : String) : String :=
  String.mk (s.toList.map Char.toLower)

/-- Python `str.strip()`: remove leading and trailing whitespace. -/
def pyStrip (s : String) : String :=
  String.mk (((s.toList.dropWhile Char.isWhitespace).reverse.dropWhile
    Char.isWhitespace).reverse)

/-- Python `re.match(r'[12]\d{3}$', s)` as a Boolean: `s` is exactly four
characters, the first is `1` or `2`, the rest are digits. -/
def reMatchYear (s : String) : Bool :=
  match s.toList with
  | [a, b, c, d] => (a == '1' || a == '2') && b.isDigit && c.isDigit && d.isDigit
  | _ => false

/-- Python `re.match(r'[01]\d$', s)` as a Boolean: `s` is exactly two
characters, the first is `0` or `1`, the second a digit. -/
def reMatchMonth (s : String) : Bool :=
  match s.toList with
  | [a, b] => (a == '0' || a == '1') && b.isDigit
  | _ => false

/-- Python `re.match(r'[012]\d{3}$', s)` as a Boolean: `s` is exactly four
characters, the first is `0`, `1` or `2`, the rest are digits.  This is the
pattern `_get_date_from_field_number` applies to the *day* component. -/
def reMatchDay (s : String) : Bool :=
  match s.toList with
  | [a, b, c, d] =>
      (a == '0' || a == '1' || a == '2') && b.isDigit && c.isDigit && d.isDigit
  | _ => false

/-- The date dictionary built by `_get_date_from_field_number`: optional
`year`, `month` and `day` string entries. -/
structure DateDict where
  year : Option String
  month : Option String
  day : Option String
deriving DecidableEq, Repr

/-- `_get_date_from_field_number`, from the point after the external
collaborators ran: `arr` is `convert_simple_date_to_array` applied to the
requested MARC field value.  Returns `none` where the source returns `None`
(no year parsed); otherwise the nested regex checks add `year`, then `month`,
then `day`. -/
def getDateFromFieldNumber (arr : List String) : Option DateDict :=
  match arr with
  | [] => none
  | y :: rest =>
    if reMatchYear y then
      match rest with
      | [] => some ⟨some y, none, none⟩
      | m :: rest2 =>
        if reMatchMonth m then
          match rest2 with
          | [] => some ⟨some y, some m, none⟩
          | d :: _ =>
            if reMatchDay d then some ⟨some y, some m, some d⟩
            else some ⟨some y, some m, none⟩
        else some ⟨some y, none, none⟩
    else none

/-- The values the external collaborators deliver for one MARC record: the
record is represented by what `get_doi_for_paper`, `record_get_field_value`,
`record_get_field_instances` and `convert_simple_date_to_array` return for it.
An absent field value is the empty string (falsy in the source); a `037`
field instance is its list of (subfield code, value) pairs. -/
structure RecStruct where
  /-- `get_doi_for_paper(recid, recstruct)` (iterated as a set in the source). -/
  dois : List String
  /-- `record_get_field_value(recstruct, '020', '', '', 'a')`. -/
  isbn : String
  /-- `record_get_field_instances(recstruct, '037')`, each instance's subfield pairs. -/
  ext037 : List (List (String × String))
  /-- `convert_simple_date_to_array` of field `269 $c`. -/
  dateArr269 : List String
  /-- `convert_simple_date_to_array` of field `260 $c`. -/
  dateArr260 : List String
  /-- `convert_simple_date_to_array` of field `502 $d`. -/
  dateArr502 : List String
  /-- `record_get_field_value(recstruct, '773', '', '', 'y')`. -/
  year773 : String
  /-- `record_get_field_value(recstruct, '041', '', '', 'a')`. -/
  language : String
  /-- `record_get_field_value(recstruct, '359', '', '', '9')` (work source). -/
  workSource : String
deriving DecidableEq, Repr

/-- `_get_publication_date`: tries fields `269 $c`, `260 $c`, `502 $d` via
`_get_date_from_field_number`; otherwise falls back to a year-only date from
`773 $y` when it matches `[12]\d{3}$`.  `none` stands for the source's empty
(falsy) dictionary, which the work builder then omits. -/
def getPublicationDate (rec : RecStruct) : Option DateDict :=
  match getDateFromFieldNumber rec.dateArr269 with
  | some d => some d
  | none =>
    match getDateFromFieldNumber rec.dateArr260 with
    | some d => some d
    | none =>
      match getDateFromFieldNumber rec.dateArr502 with
      | some d => some d
      | none =>
        if rec.year773 ≠ "" ∧ reMatchYear rec.year773 then
          some ⟨some rec.year773, none, none⟩
        else none

/-- The remote-known-identifiers snapshot `old_external_ids`: one set of
values per identifier kind (`doi`, `isbn`, `arxiv`, `other-id`), modelled as
lists with membership as the only observation. -/
structure ExtIdsSnapshot where
  doi : List String
  isbn : List String
  arxiv : List String
  otherId : List String
deriving DecidableEq, Repr

/-- The blacklist document: a JSON object mapping an author's ORCID to the
list of permanently rejected identifier values. -/
abbrev Blacklist : Type := List (String × List String)

/-- `blacklist.get(orcid, [])` on the blacklist document (unique keys). -/
def blacklistGet (bl : Blacklist) (orcid : String) : List String :=
  match bl.find? (fun p => p.1 = orcid) with
  | some p => p.2
  | none => []

/-- Python-set insertion on the accumulated `external_ids` (adding an element
already present changes nothing). -/
def setInsert (x : String × String) (l : List (String × String)) :
    List (String × String) :=
  if x ∈ l then l else l ++ [x]

/-- The DOI loop of `_get_external_ids`: for each DOI, raise
`OrcidRecordExisting` (modelled as `Except.error ()`) when it is already in
`old_external_ids['doi']` or in `blacklist.get(orcid, [])`; otherwise add
`('doi', encode(doi))` to the accumulator.  (Iterating the list instead of
Python's `set(doi)` is observationally equal: set insertion is idempotent and
the raise condition is membership.) -/
def processDois (encode : String → String) (oldDoi bl : List String) :
    List String → List (String × String) → Except Unit (List (String × String))
  | [], acc => .ok acc
  | d :: ds, acc =>
    if d ∈ oldDoi ∨ d ∈ bl then .error ()
    else processDois encode oldDoi bl ds (setInsert ("doi", encode d) acc)

/-- The ISBN step of `_get_external_ids`: when field `020 $a` is non-empty,
raise when it is in `old_external_ids['isbn']`, otherwise add
`('isbn', encode(isbn))`.  The blacklist is not consulted here. -/
def processIsbn (encode : String → String) (oldIsbn : List String)
    (isbn : String) (acc : List (String × String)) :
    Except Unit (List (String × String)) :=
  if isbn ≠ "" then
    if isbn ∈ oldIsbn then .error ()
    else .ok (setInsert ("isbn", encode isbn) acc)
  else .ok acc

/-- The inner subfield scan of the `037` loop: `arxiv` becomes true on a
subfield `9` whose value lowercases to `arxiv`; `the_id` is overwritten by
each subfield `a` (last one wins); initial `the_id` is `None`. -/
def scanInstance (inst : List (String × String)) : Bool × Option String :=
  inst.foldl
    (fun st f =>
      if f.1 = "9" ∧ pyLower f.2 = "arxiv" then (true, st.2)
      else if f.1 = "a" then (st.1, some f.2)
      else st)
    (false, none)

/-- The arXiv loop of `_get_external_ids` over the `037` field instances: for
an arXiv-flagged instance, raise when its id is in
`old_external_ids['arxiv']`; when the encoded id already occurs among the
accumulated arXiv entries the source only reports a `DoubledIds` warning and
adds nothing; otherwise add `('arxiv', encode(the_id))`.  The blacklist is
not consulted here.  An arXiv-flagged instance with no subfield `a` leaves
`the_id = None`, which is not in `old_external_ids['arxiv']`; on it the
source would fail inside `encode_for_jinja_and_xml(None)` — that branch is
modelled as adding nothing and is exercised by no claim. -/
def processArxiv (encode : String → String) (oldArxiv : List String) :
    List (List (String × String)) → List (String × String) →
    Except Unit (List (String × String))
  | [], acc => .ok acc
  | inst :: rest, acc =>
    match scanInstance inst with
    | (true, some t) =>
      if t ∈ oldArxiv then .error ()
      else
        if encode t ∈ (acc.filter (fun p => p.1 = "arxiv")).map Prod.snd then
          processArxiv encode oldArxiv rest acc
        else processArxiv encode oldArxiv rest (setInsert ("arxiv", encode t) acc)
    | (true, none) => processArxiv encode oldArxiv rest acc
    | (false, _) => processArxiv encode oldArxiv rest acc

/-- `_get_external_ids`: DOI loop, ISBN step and arXiv loop in source order;
then raise `OrcidRecordExisting` when the record's canonical `url` is already
in `old_external_ids['other-id']`; finally fall back to a single
`('other-id', url)` entry when nothing was collected.  `Except.error ()`
models the raised `OrcidRecordExisting` (Skip). -/
def getExternalIds (encode : String → String) (url : String)
    (rec : RecStruct) (old : ExtIdsSnapshot) (blFile : Option Blacklist)
    (orcid : String) : Except Unit (List (String × String)) :=
  match processDois encode old.doi (blacklistGet (blFile.getD []) orcid)
      rec.dois [] with
  | .error e => .error e
  | .ok acc1 =>
    match processIsbn encode old.isbn rec.isbn acc1 with
    | .error e => .error e
    | .ok acc2 =>
      match processArxiv encode old.arxiv rec.ext037 acc2 with
      | .error e => .error e
      | .ok acc3 =>
        if url ∈ old.otherId then .error ()
        else if acc3.length = 0 then .ok [("other-id", url)]
        else .ok acc3

/-- The language-code step of `_get_orcid_dictionaries` (field `041 $a`):
when the field is non-empty and its lowercased, stripped value is in
`LANGUAGE_MAP`, the code is the encoded mapped value; when it is non-empty
but unmapped, no `language_code` entry is produced; when the field is empty
(falsy), the code is the literal `"en"` (not passed through the encoder). -/
def languageCode (encode : String → String) (language : String) :
    Option String :=
  if language ≠ "" then
    match assocGet LANGUAGE_MAP (pyStrip (pyLower language)) with
    | some c => some (encode c)
    | none => none
  else some "en"

/-- One work submission record (`work_dict`), restricted to the fields the
verified properties observe.  The remaining fields of the source dictionary
(title, short description, journal title, citation, work type,
contributors) are built from external collaborator output
(`bibformat_record`, `record_get_field_value`, signatures) and are not
observed by any claim; a completed record never has a work-source entry (see
`buildWorkStep`). -/
structure WorkDict where
  work_external_identifiers : List (String × String)
  publication_date : Option DateDict
  url : String
  language_code : Option String
  visibility : String
deriving DecidableEq, Repr

/-- The contents of the work dictionary the `_get_orcid_dictionaries` loop
body assembles for a record it completes — i.e. a record that is not skipped
and whose `359 $9` work-source value is empty (a non-empty value makes the
body raise, see `buildWorkStep`, and a completed record therefore never has a
work-source entry).  An absent optional entry is `none`. -/
def buildWorkDict (encode : String → String) (url : String) (rec : RecStruct)
    (extIds : List (String × String)) : WorkDict :=
  { work_external_identifiers := extIds
    publication_date := getPublicationDate rec
    url := url
    language_code := languageCode encode rec.language
    visibility := "public" }

/-- Outcome of one iteration of the `_get_orcid_dictionaries` loop body. -/
inductive WorkStep where
  /-- `OrcidRecordExisting` raised by `_get_external_ids` and caught:
  `continue` to the next record. -/
  | skip
  /-- The record reached `work_dict['work_source']['work-source'] = ...`
  with a non-empty `359 $9` value: `work_dict` has no `'work_source'` key
  (it is initialized as `{'work_title': {}}` and the key is never created),
  so the subscript raises an uncaught `KeyError` that aborts the whole
  generator. -/
  | keyError
  /-- The record was completed and appended to `orcid_list`. -/
  | record (wd : WorkDict)
deriving DecidableEq, Repr

/-- One iteration of the `_get_orcid_dictionaries` loop body: skip when
`_get_external_ids` raises; otherwise the body builds the dictionary and, on
a non-empty `359 $9` work-source value, raises `KeyError` at the
`work_dict['work_source']` subscript (an uncaught crash); only with an empty
work-source value does the record complete. -/
def buildWorkStep (encode : String → String) (url : String) (rec : RecStruct)
    (old : ExtIdsSnapshot) (blFile : Option Blacklist) (orcid : String) :
    WorkStep :=
  match getExternalIds encode url rec old blFile orcid with
  | .error _ => .skip
  | .ok ids =>
    if rec.workSource ≠ "" then .keyError
    else .record (buildWorkDict encode url rec ids)

/-- The accumulator loop of `_get_orcid_dictionaries`: for each paper
(its canonical URL and record), run the loop body; on a skip continue; on
the `KeyError` of the work-source subscript the generator aborts — records
already yielded stand, the pending accumulator and all remaining records are
lost, and the second component reports `true` (the exception propagates to
the caller); on a completed record append it to `orcid_list` and yield /
reset when it reaches `ORCID_SINGLE_REQUEST_WORKS`.  After a completed loop,
yield the remaining list when it is non-empty. -/
def getOrcidDictionariesGo (encode : String → String) (old : ExtIdsSnapshot)
    (blFile : Option Blacklist) (orcid : String) :
    List (String × RecStruct) → List WorkDict →
    List (List WorkDict) × Bool
  | [], acc => (if acc.length > 0 then [acc] else [], false)
  | (url, rec) :: ps, acc =>
    match buildWorkStep encode url rec old blFile orcid with
    | .skip => getOrcidDictionariesGo encode old blFile orcid ps acc
    | .keyError => ([], true)
    | .record wd =>
      let acc' := acc ++ [wd]
      if acc'.length = ORCID_SINGLE_REQUEST_WORKS then
        let r := getOrcidDictionariesGo encode old blFile orcid ps []
        (acc' :: r.1, r.2)
      else getOrcidDictionariesGo encode old blFile orcid ps acc'

/-- `_get_orcid_dictionaries`: the sequence of batches the generator yields,
in order, up to completion or the `KeyError` abort.  `papers` pairs each
record with its canonical URL (`CFG_SITE_URL + '/record/%d' % recid` in the
source). -/
def getOrcidDictionaries (encode : String → String) (old : ExtIdsSnapshot)
    (blFile : Option Blacklist) (orcid : String)
    (papers : List (String × RecStruct)) : List (List WorkDict) :=
  (getOrcidDictionariesGo encode old blFile orcid papers []).1

/-- Whether `_get_orcid_dictionaries` aborts with the uncaught `KeyError` of
the work-source subscript instead of completing its input. -/
def getOrcidDictionariesRaises (encode : String → String)
    (old : ExtIdsSnapshot) (blFile : Option Blacklist) (orcid : String)
    (papers : List (String × RecStruct)) : Bool :=
  (getOrcidDictionariesGo encode old blFile orcid papers []).2

/-- `lit` matched literally at the head of `cs`: the remainder after the
literal, or `none`. -/
def dropLit : List Char → List Char → Option (List Char)
  | [], cs => some cs
  | _ :: _, [] => none
  | l :: ls, c :: cs => if l = c then dropLit ls cs else none

/-- The greedy `(.*)"` part of the collision pattern, applied right after the
literal: `.` does not cross a newline, `(.*)` is greedy, so the capture runs
to the last `"` on the current line; no `"` on the line means no match
here. -/
def greedyCapture (cs : List Char) : Option String :=
  let line := cs.takeWhile (fun c => c ≠ '\n')
  match line.reverse.dropWhile (fun c => c ≠ '"') with
  | [] => none
  | _ :: rest => some (String.mk rest.reverse)

/-- Leftmost-match scan for `re.search`: try the pattern at each position in
turn; the first position where the literal matches and a closing quote
follows on the same line wins, with the greedy capture taken there. -/
def searchLoop (lit : List Char) : List Char → Option String
  | [] =>
    match dropLit lit [] with
    | some tail => greedyCapture tail
    | none => none
  | c :: rest =>
    match dropLit lit (c :: rest) with
    | some tail =>
      match greedyCapture tail with
      | some s => some s
      | none => searchLoop lit rest
    | none => searchLoop lit rest

/-- `re.search(r'have the same external id "(.*)"', text)` from
`_push_few_works`: the captured conflicting identifier value, when the
collision pattern occurs in the response body. -/
def searchSameExternalId (text : String) : Option String :=
  searchLoop ("have the same external id ".toList ++ ['"']) text.toList

/-- An HTTP response to the push, as `_push_few_works` observes it: status
code and body text. -/
structure Response where
  status_code : Nat
  text : String
deriving DecidableEq, Repr

/-- The value `_push_few_works` returns: `True` / `False`, or the shortened
list to repush (`isinstance(result, list)` in the caller's loop). -/
inductive PushResult where
  | done (success : Bool)
  | retry (shorter : List WorkDict)
deriving DecidableEq, Repr

/-- The observable outcome of one `_push_few_works` call: its return value,
whether `delete_token(pid)` ran, and the blacklist file's content afterwards
(`none` = the file does not exist). -/
structure PushOutcome where
  result : PushResult
  tokenDeleted : Bool
  blacklistFile : Option Blacklist

/-- The blacklist update of `_push_few_works`: append the value to the
author's entry when present, otherwise create the entry (Python dict keyed by
`doid`; first-match semantics on the association list). -/
def blacklistAdd (bl : Blacklist) (doid wrongId : String) : Blacklist :=
  if bl.any (fun p => p.1 = doid) then
    bl.map (fun p => if p.1 = doid then (p.1, p.2 ++ [wrongId]) else p)
  else bl ++ [(doid, [wrongId])]

/-- `_push_few_works`, from the point where the POST response arrived
(`response` is an input; the XML serialization does not affect the observed
outcome).  Branches of the source, in order:
* status 401: `delete_token(pid)`, return `True`;
* status not in {200, 201}: `raise_for_status()` raises `HTTPError` exactly
  for 4xx/5xx codes; inside the handler, when the collision pattern matches,
  the records carrying the conflicting value are dropped; the blacklist is
  updated **and written back only when a non-empty blacklist was loaded**
  (`if blacklist:` guards both the update and `json.dump`); empty remainder
  returns `True`, otherwise the shortened list; no pattern match returns
  `False`; a non-2xx status outside 4xx/5xx falls through the `try` to the
  final `return True`;
* status 200/201: `return True`. -/
def pushFewWorks (doid : String) (short_list : List WorkDict)
    (blFile : Option Blacklist) (response : Response) : PushOutcome :=
  let code := response.status_code
  if code = 401 then
    { result := .done true, tokenDeleted := true, blacklistFile := blFile }
  else if code ≠ 201 ∧ code ≠ 200 then
    if 400 ≤ code ∧ code < 600 then
      match searchSameExternalId response.text with
      | some wrongId =>
        let shorter := short_list.filter
          (fun x => x.work_external_identifiers.all (fun t => t.2 ≠ wrongId))
        let bl := blFile.getD []
        let blFile' :=
          if bl ≠ [] then some (blacklistAdd bl doid wrongId) else blFile
        if shorter.length = 0 then
          { result := .done true, tokenDeleted := false, blacklistFile := blFile' }
        else
          { result := .retry shorter, tokenDeleted := false,
            blacklistFile := blFile' }
      | none =>
        { result := .done false, tokenDeleted := false, blacklistFile := blFile }
    else
      { result := .done true, tokenDeleted := false, blacklistFile := blFile }
  else
    { result := .done true, tokenDeleted := false, blacklistFile := blFile }

/-- The repush loop of `_orcid_push_with_bibtask` for one batch
(`while isinstance(result, list): result = _push_few_works(...)`), driven by
the sequence of responses the server returns round by round, threading the
blacklist file state.  `none` means the modelled response sequence ran out
while the engine still wanted to repush. -/
def pushLoop (doid : String) :
    List Response → Option Blacklist → List WorkDict →
    Option (Bool × Option Blacklist)
  | [], _, _ => none
  | r :: rs, blFile, batch =>
    let o := pushFewWorks doid batch blFile r
    match o.result with
    | .done b => some (b, o.blacklistFile)
    | .retry l => pushLoop doid rs o.blacklistFile l

/-- The error classes `_get_works_from_orcid` can raise, as
`retry_if_timeout_error` distinguishes them: the two timeout classes from
`requests.exceptions`, and any other request failure (e.g. the `HTTPError`
raised by `raise_for_status`). -/
inductive FetchError where
  | connectTimeout
  | readTimeout
  | httpError (code : Nat)
deriving DecidableEq, Repr

/-- `retry_if_timeout_error` from the source: an exception is retryable
exactly when it is a `ReadTimeout` or a `ConnectTimeout`. -/
def retry_if_timeout_error : FetchError → Bool
  | .readTimeout => true
  | .connectTimeout => true
  | .httpError _ => false

/-- Outcome of a retried call: success, exhaustion of the attempt ceiling
with the last error wrapped (`RetryError` under `wrap_exception=True`), or an
error the predicate rejects, re-raised at once.  `waits` lists the
milliseconds slept before each retry, in order. -/
inductive RetryResult (E A : Type) where
  | ok (a : A) (waits : List Nat)
  | retryError (last : E) (waits : List Nat)
  | raised (e : E) (waits : List Nat)
deriving DecidableEq, Repr

/-- Prepend one performed wait to a retry outcome's wait list. -/
def consWait {E A : Type} (w : Nat) : RetryResult E A → RetryResult E A
  | .ok a ws => .ok a (w :: ws)
  | .retryError e ws => .retryError e (w :: ws)
  | .raised e ws => .raised e (w :: ws)

/-- Modelled from the spec: the `@retry(...)` combinator of the third-party
`retrying` library (not part of this repository).  Per the spec's words,
attempt outcomes `f 1, f 2, ...` are tried in turn; a failure the predicate
accepts is retried after an exponentially increasing wait (base `mult`
milliseconds, doubling) while retries remain, and once the attempt ceiling is
exhausted the last error is wrapped as a retry-exhausted failure; a failure
the predicate rejects is re-raised immediately.  `remaining` counts the
retries still allowed after the current attempt. -/
def retryExec {E A : Type} (pred : E → Bool) (mult : Nat)
    (f : Nat → Except E A) : Nat → Nat → RetryResult E A
  | attemptNo, remaining =>
    match f attemptNo with
    | .ok a => .ok a []
    | .error e =>
      if pred e then
        match remaining with
        | 0 => .retryError e []
        | rem + 1 =>
          consWait (mult * 2 ^ (attemptNo - 1))
            (retryExec pred mult f (attemptNo + 1) rem)
      else .raised e []

/-- `stop_max_attempt_number=3` from the decorator in the source. -/
def STOP_MAX_ATTEMPT_NUMBER : Nat := 3

/-- The decorated `_get_works_from_orcid` of `get_dois_from_orcid_api_v2_1`,
at the configuration given in the source: retry only timeouts
(`retry_if_timeout_error`), `wait_exponential_multiplier=250`,
`stop_max_attempt_number=3`, `wrap_exception=True`. -/
def getWorksFromOrcidRetry {A : Type} (f : Nat → Except FetchError A) :
    RetryResult FetchError A :=
  retryExec retry_if_timeout_error 250 f 1 (STOP_MAX_ATTEMPT_NUMBER - 1)

/-! ## Helper lemmas -/

/-- The DOI loop raises `OrcidRecordExisting` as soon as some DOI of the
record is known remotely or blacklisted, whatever was accumulated so far. -/
theorem processDois_error_of_mem (encode : String → String)
    (oldDoi bl : List String) :
    ∀ (ds : List String) (acc : List (String × String)),
      (∃ d ∈ ds, d ∈ oldDoi ∨ d ∈ bl) →
      processDois encode oldDoi bl ds acc = .error () := by
  intro ds
  induction ds with
  | nil => rintro acc ⟨x, hx, -⟩; exact absurd hx (List.not_mem_nil x)
  | cons d ds ih =>
    rintro acc ⟨x, hx, hbad⟩
    by_cases hd : d ∈ oldDoi ∨ d ∈ bl
    · simp [processDois, hd]
    · rcases List.mem_cons.mp hx with rfl | hx'
      · exact absurd hbad hd
      · simp only [processDois, if_neg hd]
        exact ih _ ⟨x, hx', hbad⟩

/-- The arXiv loop raises `OrcidRecordExisting` as soon as some arXiv-flagged
`037` instance carries an id that is known remotely, whatever was
accumulated so far. -/
theorem processArxiv_error_of_mem (encode : String → String)
    (oldArxiv : List String) :
    ∀ (l : List (List (String × String))) (acc : List (String × String)),
      (∃ inst ∈ l, ∃ t, scanInstance inst = (true, some t) ∧ t ∈ oldArxiv) →
      processArxiv encode oldArxiv l acc = .error () := by
  intro l
  induction l with
  | nil => rintro acc ⟨x, hx, -⟩; exact absurd hx (List.not_mem_nil x)
  | cons inst rest ih =>
    rintro acc ⟨x, hx, t, hscan, hmem⟩
    rcases List.mem_cons.mp hx with rfl | hx'
    · simp [processArxiv, hscan, hmem]
    · have hrest : ∃ inst ∈ rest, ∃ t, scanInstance inst = (true, some t) ∧
          t ∈ oldArxiv := ⟨x, hx', t, hscan, hmem⟩
      match hs : scanInstance inst with
      | (true, some u) =>
        by_cases hu : u ∈ oldArxiv
        · simp [processArxiv, hs, hu]
        · simp only [processArxiv, hs, if_neg hu]
          split
          · exact ih _ hrest
          · exact ih _ hrest
      | (true, none) => simp only [processArxiv, hs]; exact ih _ hrest
      | (false, o) => simp only [processArxiv, hs]; exact ih _ hrest

/-! ## C1 — skip conditions of the External-ID Extractor -/

/-- C1 counterexample: the work's only candidate identifier is the ISBN
`"X"`, which is present in the author's blacklist (and not known remotely),
yet `_get_external_ids` does not raise `OrcidRecordExisting`: it returns the
identifier for submission.  The blacklist is consulted for DOIs only, so a
blacklisted ISBN does not make the extractor Skip. -/
theorem blacklisted_isbn_not_skipped :
    "X" ∈ blacklistGet [("0000", ["X"])] "0000" ∧
    getExternalIds id "u" ⟨[], "X", [], [], [], [], "", "", ""⟩ ⟨[], [], [], []⟩
        (some [("0000", ["X"])]) "0000" = .ok [("isbn", "X")] := by
  constructor
  · decide
  · rfl

/-- C1 (amended): `_get_external_ids` raises `OrcidRecordExisting` (Skip)
whenever some candidate DOI is already known remotely **or** blacklisted for
the author, whenever the ISBN is already known remotely, or whenever some
arXiv-flagged `037` instance carries an id already known remotely.  (The
blacklist is consulted for DOI candidates only.) -/
theorem skip_of_known_remote_or_blacklisted_doi (encode : String → String)
    (url : String) (rec : RecStruct) (old : ExtIdsSnapshot)
    (blFile : Option Blacklist) (orcid : String)
    (h : (∃ d ∈ rec.dois,
            d ∈ old.doi ∨ d ∈ blacklistGet (blFile.getD []) orcid)
       ∨ (rec.isbn ≠ "" ∧ rec.isbn ∈ old.isbn)
       ∨ (∃ inst ∈ rec.ext037, ∃ t,
            scanInstance inst = (true, some t) ∧ t ∈ old.arxiv)) :
    getExternalIds encode url rec old blFile orcid = .error () := by
  rcases h with h | h | h
  · have h1 := processDois_error_of_mem encode old.doi
      (blacklistGet (blFile.getD []) orcid) rec.dois [] h
    simp [getExternalIds, h1]
  · cases h1 : processDois encode old.doi
        (blacklistGet (blFile.getD []) orcid) rec.dois [] with
    | error e => cases e; simp [getExternalIds, h1]
    | ok acc1 =>
      have h2 : processIsbn encode old.isbn rec.isbn acc1 = .error () := by
        simp [processIsbn, h.1, h.2]
      simp [getExternalIds, h1, h2]
  · cases h1 : processDois encode old.doi
        (blacklistGet (blFile.getD []) orcid) rec.dois [] with
    | error e => cases e; simp [getExternalIds, h1]
    | ok acc1 =>
      cases h2 : processIsbn encode old.isbn rec.isbn acc1 with
      | error e => cases e; simp [getExternalIds, h1, h2]
      | ok acc2 =>
        have h3 := processArxiv_error_of_mem encode old.arxiv rec.ext037 acc2 h
        simp [getExternalIds, h1, h2, h3]

/-- C1 witness: a concrete work whose DOI is blacklisted for the author is
skipped. -/
theorem skip_of_known_remote_or_blacklisted_doi_witness :
    getExternalIds id "u" ⟨["10.1/x"], "", [], [], [], [], "", "", ""⟩
        ⟨[], [], [], []⟩ (some [("o", ["10.1/x"])]) "o" = .error () :=
  skip_of_known_remote_or_blacklisted_doi id "u" _ _ (some [("o", ["10.1/x"])])
    "o" (Or.inl ⟨"10.1/x", by decide, Or.inr (by decide)⟩)

/-! ## C9 — a remotely known canonical URL always skips -/

/-- C9: when the work's canonical URL is already in
`old_external_ids['other-id']`, `_get_external_ids` raises
`OrcidRecordExisting` unconditionally — whatever identifiers the work
carries, known or not. -/
theorem url_known_remote_skips (encode : String → String) (url : String)
    (rec : RecStruct) (old : ExtIdsSnapshot) (blFile : Option Blacklist)
    (orcid : String) (h : url ∈ old.otherId) :
    getExternalIds encode url rec old blFile orcid = .error () := by
  cases h1 : processDois encode old.doi
      (blacklistGet (blFile.getD []) orcid) rec.dois [] with
  | error e => cases e; simp [getExternalIds, h1]
  | ok acc1 =>
    cases h2 : processIsbn encode old.isbn rec.isbn acc1 with
    | error e => cases e; simp [getExternalIds, h1, h2]
    | ok acc2 =>
      cases h3 : processArxiv encode old.arxiv rec.ext037 acc2 with
      | error e => cases e; simp [getExternalIds, h1, h2, h3]
      | ok acc3 => simp [getExternalIds, h1, h2, h3, h]

/-- C9 witness: a concrete work carrying a DOI that is neither known remotely
nor blacklisted is still skipped because its URL is known remotely. -/
theorem url_known_remote_skips_witness :
    getExternalIds id "u" ⟨["10.1/new"], "", [], [], [], [], "", "", ""⟩
        ⟨[], [], [], ["u"]⟩ none "o" = .error () :=
  url_known_remote_skips id "u" _ _ none "o" (by decide)

/-! ## C2 — blacklist recording on collision -/

/-- After `blacklistAdd`, the value is in the author's blacklist entry
(whether the entry existed before or was just created). -/
theorem mem_blacklistGet_blacklistAdd (bl : Blacklist) (doid w : String) :
    w ∈ blacklistGet (blacklistAdd bl doid w) doid := by
  induction bl with
  | nil => simp [blacklistAdd, blacklistGet]
  | cons p bs ih =>
    by_cases h : p.1 = doid
    · simp [blacklistAdd, blacklistGet, h]
    · have hadd : blacklistAdd (p :: bs) doid w
          = p :: blacklistAdd bs doid w := by
        by_cases h2 : bs.any (fun q => q.1 = doid)
        · simp [blacklistAdd, h, h2]
        · simp [blacklistAdd, h, h2]
      have hget : blacklistGet (p :: blacklistAdd bs doid w) doid
          = blacklistGet (blacklistAdd bs doid w) doid := by
        simp [blacklistGet, List.find?_cons, h]
      rw [hadd, hget]
      exact ih

/-- C2 counterexample: a collision response naming the conflicting value
`"v"` is resolved (the offending record is removed and the push reports
success), but because no blacklist file existed the value is **not**
recorded: the blacklist file stays absent, so the author's blacklist entry
is not created on the first resolved collision. -/
theorem collision_with_no_blacklist_file_not_persisted :
    searchSameExternalId "works have the same external id \"v\"" = some "v" ∧
    (pushFewWorks "0000" [⟨[("doi", "v")], none, "u", none, "public"⟩] none
        ⟨409, "works have the same external id \"v\""⟩).result = .done true ∧
    (pushFewWorks "0000" [⟨[("doi", "v")], none, "u", none, "public"⟩] none
        ⟨409, "works have the same external id \"v\""⟩).blacklistFile
      = none := by
  refine ⟨rfl, rfl, rfl⟩

/-- C2 (amended): on an identifier-collision response, when the blacklist
file was loaded **and is non-empty**, `_push_few_works` records the
conflicting value under the author (appending to the author's entry or
creating it) and writes the document back immediately; when the file is
absent or holds an empty object, the collision is still resolved by removal
but nothing is recorded or persisted. -/
theorem collision_records_blacklist_when_nonempty (doid : String)
    (short_list : List WorkDict) (bl : Blacklist) (resp : Response)
    (w : String)
    (hc1 : resp.status_code ≠ 401) (hc2 : resp.status_code ≠ 200)
    (hc3 : resp.status_code ≠ 201)
    (hc4 : 400 ≤ resp.status_code) (hc5 : resp.status_code < 600)
    (hs : searchSameExternalId resp.text = some w) (hbl : bl ≠ []) :
    (pushFewWorks doid short_list (some bl) resp).blacklistFile
        = some (blacklistAdd bl doid w)
    ∧ w ∈ blacklistGet (blacklistAdd bl doid w) doid
    ∧ (pushFewWorks doid short_list none resp).blacklistFile = none := by
  refine ⟨?_, mem_blacklistGet_blacklistAdd bl doid w, ?_⟩ <;>
    simp [pushFewWorks, hc1, hc2, hc3, hc4, hc5, hs, hbl] <;>
    split <;> rfl

/-- C2 witness: a concrete collision against a one-entry blacklist appends
the value and persists it. -/
theorem collision_records_blacklist_when_nonempty_witness :
    (pushFewWorks "0000" [⟨[("doi", "v")], none, "u", none, "public"⟩]
        (some [("0000", ["old"])])
        ⟨409, "works have the same external id \"v\""⟩).blacklistFile
      = some [("0000", ["old", "v"])] := by
  have h := collision_records_blacklist_when_nonempty "0000"
    [⟨[("doi", "v")], none, "u", none, "public"⟩] [("0000", ["old"])]
    ⟨409, "works have the same external id \"v\""⟩ "v"
    (by decide) (by decide) (by decide) (by decide) (by decide) rfl
    (by decide)
  exact h.1

/-! ## C3 — batch shrinking on collision -/

/-- Characterization of the repush return value of `_push_few_works`: a list
is returned only from the collision branch, and it is exactly the submitted
list filtered of the records carrying the reported conflicting value. -/
theorem pushFewWorks_retry_eq (doid : String) (l : List WorkDict)
    (blFile : Option Blacklist) (resp : Response) (l' : List WorkDict)
    (h : (pushFewWorks doid l blFile resp).result = .retry l') :
    ∃ w, searchSameExternalId resp.text = some w ∧
      l' = l.filter
        (fun x => x.work_external_identifiers.all (fun t => t.2 ≠ w)) := by
  by_cases h401 : resp.status_code = 401
  · simp [pushFewWorks, h401] at h
  · by_cases hcode : resp.status_code ≠ 201 ∧ resp.status_code ≠ 200
    · by_cases h4xx : 400 ≤ resp.status_code ∧ resp.status_code < 600
      · cases hs : searchSameExternalId resp.text with
        | none => simp [pushFewWorks, h401, hcode, h4xx, hs] at h
        | some w =>
          simp only [pushFewWorks, if_neg h401, if_pos hcode, if_pos h4xx,
            hs] at h
          split at h
          · simp at h
          · refine ⟨w, rfl, ?_⟩
            injection h with h'
            exact h'.symm
      · simp [pushFewWorks, h401, hcode, h4xx] at h
    · simp [pushFewWorks, h401, hcode] at h

/-- C3 counterexample: a collision response naming the value `"b"`, which no
submitted record carries, does **not** shrink the batch: the returned list
equals the submitted one-record batch, so repushing loops without shrinking
and the loop for this batch is not finished after `batch_size = 1` collision
rounds (two such rounds still leave the engine asking to repush). -/
theorem collision_unmatched_value_does_not_shrink :
    searchSameExternalId "works have the same external id \"b\"" = some "b" ∧
    (pushFewWorks "0000" [⟨[("doi", "a")], none, "u", none, "public"⟩] none
        ⟨409, "works have the same external id \"b\""⟩).result
      = .retry [⟨[("doi", "a")], none, "u", none, "public"⟩] ∧
    pushLoop "0000"
        [⟨409, "works have the same external id \"b\""⟩,
         ⟨409, "works have the same external id \"b\""⟩] none
        [⟨[("doi", "a")], none, "u", none, "public"⟩] = none := by
  refine ⟨rfl, rfl, rfl⟩

/-- C3 (amended): the collision-resolution step never grows the batch, and it
strictly shrinks the batch exactly in the intended case — whenever the
reported conflicting value occurs among the external identifiers of at least
one submitted record.  When the reported value occurs in no submitted record
the filtered list equals the submitted list, so the at-most-`batch_size`
collision-rounds termination bound holds only for collisions naming a
carried identifier. -/
theorem collision_shrinks_iff_value_carried (doid : String)
    (l : List WorkDict) (blFile : Option Blacklist) (resp : Response) :
    (∀ l', (pushFewWorks doid l blFile resp).result = .retry l' →
        l'.length ≤ l.length)
    ∧ (∀ w x t, searchSameExternalId resp.text = some w →
        x ∈ l → t ∈ x.work_external_identifiers → t.2 = w →
        ∀ l', (pushFewWorks doid l blFile resp).result = .retry l' →
          l'.length < l.length) := by
  constructor
  · intro l' h
    obtain ⟨w, hs, rfl⟩ := pushFewWorks_retry_eq doid l blFile resp l' h
    exact List.length_filter_le _ l
  · intro w x t hs hx ht htv l' h
    obtain ⟨w', hs', rfl⟩ := pushFewWorks_retry_eq doid l blFile resp l' h
    rw [hs] at hs'
    injection hs' with hw
    subst hw
    refine List.length_filter_lt_length_iff_exists.mpr ⟨x, hx, ?_⟩
    intro hall
    rw [List.all_eq_true] at hall
    have hcontra := hall t ht
    simp [htv] at hcontra

/-- C3 witness: a collision naming `"v"`, carried by the first of two
submitted records, strictly shrinks the batch from two records to one. -/
theorem collision_shrinks_iff_value_carried_witness :
    (([⟨[("doi", "z")], none, "u2", none, "public"⟩] : List WorkDict).length <
      ([⟨[("doi", "v")], none, "u1", none, "public"⟩,
        ⟨[("doi", "z")], none, "u2", none, "public"⟩] :
          List WorkDict).length) :=
  (collision_shrinks_iff_value_carried "0000"
      [⟨[("doi", "v")], none, "u1", none, "public"⟩,
       ⟨[("doi", "z")], none, "u2", none, "public"⟩] none
      ⟨409, "works have the same external id \"v\""⟩).2
    "v" ⟨[("doi", "v")], none, "u1", none, "public"⟩ ("doi", "v") rfl
    (by decide) (by decide) rfl
    [⟨[("doi", "z")], none, "u2", none, "public"⟩] rfl

/-! ## C4 — 401 deletes the token and is success-like -/

/-- C4: on an HTTP 401 response, `_push_few_works` runs `delete_token(pid)`
and returns `True`; consequently the caller's repush loop for that author
finishes at once with `True`, so the `if not result` guard in
`_orcid_push_with_bibtask` does not mark the job failed on a 401 alone. -/
theorem push_401_deletes_token_and_succeeds (doid : String)
    (l : List WorkDict) (blFile : Option Blacklist) (resp : Response)
    (rs : List Response) (h : resp.status_code = 401) :
    (pushFewWorks doid l blFile resp).tokenDeleted = true
    ∧ (pushFewWorks doid l blFile resp).result = .done true
    ∧ pushLoop doid (resp :: rs) blFile l = some (true, blFile) := by
  refine ⟨?_, ?_, ?_⟩ <;> simp [pushFewWorks, pushLoop, h]

/-- C4 witness: a concrete 401 response. -/
theorem push_401_deletes_token_and_succeeds_witness :
    (pushFewWorks "0000" [⟨[("doi", "v")], none, "u", none, "public"⟩] none
        ⟨401, ""⟩).tokenDeleted = true
    ∧ (pushFewWorks "0000" [⟨[("doi", "v")], none, "u", none, "public"⟩] none
        ⟨401, ""⟩).result = .done true
    ∧ pushLoop "0000" [⟨401, ""⟩] none
        [⟨[("doi", "v")], none, "u", none, "public"⟩] = some (true, none) :=
  push_401_deletes_token_and_succeeds "0000"
    [⟨[("doi", "v")], none, "u", none, "public"⟩] none ⟨401, ""⟩ [] rfl

/-! ## C5 — empty remainder after collision counts as success -/

/-- C5: when a collision response names a value carried by every submitted
record, the filtered remainder is empty and `_push_few_works` returns `True`
(success) even though nothing was pushed in that round. -/
theorem collision_empty_remainder_success (doid : String) (l : List WorkDict)
    (blFile : Option Blacklist) (resp : Response) (w : String)
    (hc1 : resp.status_code ≠ 401) (hc2 : resp.status_code ≠ 200)
    (hc3 : resp.status_code ≠ 201) (hc4 : 400 ≤ resp.status_code)
    (hc5 : resp.status_code < 600)
    (hs : searchSameExternalId resp.text = some w)
    (hall : ∀ x ∈ l, ∃ t ∈ x.work_external_identifiers, t.2 = w) :
    (pushFewWorks doid l blFile resp).result = .done true := by
  have hfil : l.filter
      (fun x => x.work_external_identifiers.all (fun t => t.2 ≠ w)) = [] := by
    rw [List.filter_eq_nil_iff]
    intro x hx
    obtain ⟨t, ht, htv⟩ := hall x hx
    simp only [List.all_eq_true, not_forall]
    exact ⟨t, ht, by simp [htv]⟩
  simp only [pushFewWorks, if_neg hc1, if_pos (And.intro hc3 hc2),
    if_pos (And.intro hc4 hc5), hs, hfil]
  simp

/-- C5 witness: a one-record batch whose only identifier collides shrinks to
empty, and the push reports success. -/
theorem collision_empty_remainder_success_witness :
    (pushFewWorks "0000" [⟨[("doi", "v")], none, "u", none, "public"⟩] none
        ⟨409, "works have the same external id \"v\""⟩).result
      = .done true :=
  collision_empty_remainder_success "0000"
    [⟨[("doi", "v")], none, "u", none, "public"⟩] none
    ⟨409, "works have the same external id \"v\""⟩ "v"
    (by decide) (by decide) (by decide) (by decide) (by decide) rfl
    (by decide)

/-! ## C6 — batch builder shape -/

/-- C6 counterexample: a single candidate work with a fresh DOI but a
non-empty `359 $9` work-source value is not skipped, yet the generator
raises the uncaught `KeyError` of the `work_dict['work_source']` subscript
and aborts: nothing is yielded, so the concatenation of the yielded batches
(empty) differs from the list of submission records built from the
non-skipped works. -/
theorem work_source_key_error_aborts_builder :
    getOrcidDictionariesRaises id ⟨[], [], [], []⟩ none "o"
        [("u1", ⟨["d1"], "", [], [], [], [], "", "", "SPIRES"⟩)] = true
    ∧ (getOrcidDictionaries id ⟨[], [], [], []⟩ none "o"
        [("u1", ⟨["d1"], "", [], [], [], [], "", "", "SPIRES"⟩)]).flatten
      ≠ [("u1",
          (⟨["d1"], "", [], [], [], [], "", "", "SPIRES"⟩ : RecStruct))].filterMap
          (fun p =>
            match getExternalIds id p.1 p.2 ⟨[], [], [], []⟩ none "o" with
            | .error _ => none
            | .ok ids => some (buildWorkDict id p.1 p.2 ids)) := by
  exact ⟨rfl, by decide⟩

/-- C6 (amended): every batch `_get_orcid_dictionaries` yields has size at
most `ORCID_SINGLE_REQUEST_WORKS` and is non-empty (a final partial batch is
yielded exactly when non-empty) — on completed and on aborted runs alike;
and whenever every non-skipped candidate work has an empty `359 $9`
work-source value (so the `KeyError` of the work-source subscript cannot
fire), the generator completes without raising and the concatenation of the
yielded batches, in order, is exactly the list of submission records built
from the non-skipped works in input order. -/
theorem batch_builder_spec (encode : String → String) (old : ExtIdsSnapshot)
    (blFile : Option Blacklist) (orcid : String)
    (papers : List (String × RecStruct)) :
    (∀ b ∈ getOrcidDictionaries encode old blFile orcid papers,
        b.length ≤ ORCID_SINGLE_REQUEST_WORKS ∧ b ≠ [])
    ∧ ((∀ p ∈ papers,
          getExternalIds encode p.1 p.2 old blFile orcid ≠ .error () →
          p.2.workSource = "") →
        getOrcidDictionariesRaises encode old blFile orcid papers = false
        ∧ (getOrcidDictionaries encode old blFile orcid papers).flatten
            = papers.filterMap (fun p =>
                match getExternalIds encode p.1 p.2 old blFile orcid with
                | .error _ => none
                | .ok ids => some (buildWorkDict encode p.1 p.2 ids))) := by
  induction papers with
  | nil =>
    simp [getOrcidDictionaries, getOrcidDictionariesRaises,
      getOrcidDictionariesGo]
  | cons p ps ih =>
    obtain ⟨url, rec⟩ := p
    cases hext : getExternalIds encode url rec old blFile orcid with
    | error e =>
      have hstep : buildWorkStep encode url rec old blFile orcid = .skip := by
        simp [buildWorkStep, hext]
      have hred1 : getOrcidDictionaries encode old blFile orcid
            ((url, rec) :: ps)
          = getOrcidDictionaries encode old blFile orcid ps := by
        simp [getOrcidDictionaries, getOrcidDictionariesGo, hstep]
      have hred2 : getOrcidDictionariesRaises encode old blFile orcid
            ((url, rec) :: ps)
          = getOrcidDictionariesRaises encode old blFile orcid ps := by
        simp [getOrcidDictionariesRaises, getOrcidDictionariesGo, hstep]
      refine ⟨by rw [hred1]; exact ih.1, ?_⟩
      intro hws
      have hws' : ∀ q ∈ ps,
          getExternalIds encode q.1 q.2 old blFile orcid ≠ .error () →
          q.2.workSource = "" :=
        fun q hq => hws q (List.mem_cons_of_mem _ hq)
      have hih := ih.2 hws'
      rw [hred1, hred2]
      exact ⟨hih.1, by simp [hext, hih.2]⟩
    | ok ids =>
      by_cases hws0 : rec.workSource = ""
      · have hstep : buildWorkStep encode url rec old blFile orcid
            = .record (buildWorkDict encode url rec ids) := by
          simp [buildWorkStep, hext, hws0]
        have hred1 : getOrcidDictionaries encode old blFile orcid
              ((url, rec) :: ps)
            = [buildWorkDict encode url rec ids] ::
                getOrcidDictionaries encode old blFile orcid ps := by
          simp [getOrcidDictionaries, getOrcidDictionariesGo, hstep,
            ORCID_SINGLE_REQUEST_WORKS]
        have hred2 : getOrcidDictionariesRaises encode old blFile orcid
              ((url, rec) :: ps)
            = getOrcidDictionariesRaises encode old blFile orcid ps := by
          simp [getOrcidDictionariesRaises, getOrcidDictionariesGo, hstep,
            ORCID_SINGLE_REQUEST_WORKS]
        refine ⟨?_, ?_⟩
        · rw [hred1]
          intro b hb
          rcases List.mem_cons.mp hb with rfl | hb'
          · exact ⟨by simp [ORCID_SINGLE_REQUEST_WORKS], by simp⟩
          · exact ih.1 b hb'
        · intro hws
          have hws' : ∀ q ∈ ps,
              getExternalIds encode q.1 q.2 old blFile orcid ≠ .error () →
              q.2.workSource = "" :=
            fun q hq => hws q (List.mem_cons_of_mem _ hq)
          have hih := ih.2 hws'
          rw [hred1, hred2]
          exact ⟨hih.1, by simp [hext, hih.2]⟩
      · have hstep : buildWorkStep encode url rec old blFile orcid
            = .keyError := by
          simp [buildWorkStep, hext, hws0]
        have hred1 : getOrcidDictionaries encode old blFile orcid
              ((url, rec) :: ps) = [] := by
          simp [getOrcidDictionaries, getOrcidDictionariesGo, hstep]
        refine ⟨?_, ?_⟩
        · rw [hred1]
          intro b hb
          exact absurd hb (List.not_mem_nil b)
        · intro hws
          have hcon : rec.workSource = "" :=
            hws (url, rec) (List.mem_cons_self _ _) (by simp [hext])
          exact absurd hcon hws0

/-- C6 witness: on a concrete two-work input with empty work-source values
(one work skipped because its DOI is known remotely), the generator
completes without raising and its yields concatenate to the one submission
record of the non-skipped work. -/
theorem batch_builder_spec_witness :
    getOrcidDictionariesRaises id ⟨["dup"], [], [], []⟩ none "o"
        [("u1", ⟨["d1"], "", [], [], [], [], "", "", ""⟩),
         ("u2", ⟨["dup"], "", [], [], [], [], "", "", ""⟩)] = false
    ∧ (getOrcidDictionaries id ⟨["dup"], [], [], []⟩ none "o"
        [("u1", ⟨["d1"], "", [], [], [], [], "", "", ""⟩),
         ("u2", ⟨["dup"], "", [], [], [], [], "", "", ""⟩)]).flatten
      = [("u1", (⟨["d1"], "", [], [], [], [], "", "", ""⟩ : RecStruct)),
         ("u2",
          (⟨["dup"], "", [], [], [], [], "", "", ""⟩ : RecStruct))].filterMap
          (fun p =>
            match getExternalIds id p.1 p.2 ⟨["dup"], [], [], []⟩ none "o" with
            | .error _ => none
            | .ok ids => some (buildWorkDict id p.1 p.2 ids)) :=
  (batch_builder_spec id ⟨["dup"], [], [], []⟩ none "o"
      [("u1", ⟨["d1"], "", [], [], [], [], "", "", ""⟩),
       ("u2", ⟨["dup"], "", [], [], [], [], "", "", ""⟩)]).2
    (fun p hp _ => by
      rcases List.mem_cons.mp hp with rfl | hp'
      · rfl
      · rcases List.mem_cons.mp hp' with rfl | hp''
        · rfl
        · exact absurd hp'' (List.not_mem_nil p))

/-! ## C7 — fetch retry policy -/

/-- C7: at the configuration in the source (`stop_max_attempt_number=3`,
`wait_exponential_multiplier=250`, `retry_on_exception=retry_if_timeout_error`,
`wrap_exception=True`):
* three timeout failures exhaust the ceiling, waiting 250 ms and then 500 ms
  between attempts, and re-raise the **last** error wrapped as a
  retry-exhausted failure;
* two timeouts followed by a success return the success, within the
  three-attempt ceiling;
* a non-timeout error on the first attempt is re-raised at once, with no
  retry and no wait;
* the outcome depends only on the first three attempts (no fourth attempt is
  ever made). -/
theorem fetch_retry_policy {A : Type} (f g : Nat → Except FetchError A)
    (e1 e2 e3 e : FetchError) (a : A) :
    (f 1 = .error e1 → f 2 = .error e2 → f 3 = .error e3 →
      retry_if_timeout_error e1 = true → retry_if_timeout_error e2 = true →
      retry_if_timeout_error e3 = true →
      getWorksFromOrcidRetry f = .retryError e3 [250, 500])
    ∧ (f 1 = .error e1 → f 2 = .error e2 → f 3 = .ok a →
      retry_if_timeout_error e1 = true → retry_if_timeout_error e2 = true →
      getWorksFromOrcidRetry f = .ok a [250, 500])
    ∧ (f 1 = .error e → retry_if_timeout_error e = false →
      getWorksFromOrcidRetry f = .raised e [])
    ∧ ((∀ i, 1 ≤ i → i ≤ 3 → f i = g i) →
      getWorksFromOrcidRetry f = getWorksFromOrcidRetry g) := by
  refine ⟨?_, ?_, ?_, ?_⟩
  · intro h1 h2 h3 hp1 hp2 hp3
    simp [getWorksFromOrcidRetry, STOP_MAX_ATTEMPT_NUMBER, retryExec,
      h1, h2, h3, hp1, hp2, hp3, consWait]
  · intro h1 h2 h3 hp1 hp2
    simp [getWorksFromOrcidRetry, STOP_MAX_ATTEMPT_NUMBER, retryExec,
      h1, h2, h3, hp1, hp2, consWait]
  · intro h1 hp
    simp [getWorksFromOrcidRetry, STOP_MAX_ATTEMPT_NUMBER, retryExec,
      h1, hp]
  · intro h
    have h1 := h 1 (by norm_num) (by norm_num)
    have h2 := h 2 (by norm_num) (by norm_num)
    have h3 := h 3 (by norm_num) (by norm_num)
    simp only [getWorksFromOrcidRetry, STOP_MAX_ATTEMPT_NUMBER, retryExec,
      h1, h2, h3]

/-- C7 witness: two timeouts then a success yield the success with waits
250 ms and 500 ms. -/
theorem fetch_retry_policy_witness :
    getWorksFromOrcidRetry
        (fun i => if i = 1 then .error FetchError.readTimeout
                  else if i = 2 then .error FetchError.connectTimeout
                  else .ok 42)
      = .ok 42 [250, 500] :=
  (fetch_retry_policy
      (fun i => if i = 1 then .error FetchError.readTimeout
                else if i = 2 then .error FetchError.connectTimeout
                else .ok 42)
      (fun i => if i = 1 then .error FetchError.readTimeout
                else if i = 2 then .error FetchError.connectTimeout
                else .ok 42)
      FetchError.readTimeout FetchError.connectTimeout
      FetchError.readTimeout FetchError.readTimeout 42).2.1
    rfl rfl rfl rfl rfl

/-! ## C8 — language code defaulting -/

/-- Every code in `LANGUAGE_MAP` is a two-letter (ISO 639-1) code. -/
theorem LANGUAGE_MAP_code_length (k c : String)
    (h : assocGet LANGUAGE_MAP k = some c) : c.length = 2 := by
  unfold assocGet at h
  cases hf : LANGUAGE_MAP.find? (fun p => p.1 = k) with
  | none => rw [hf] at h; simp at h
  | some p =>
    rw [hf] at h
    simp only [Option.map_some', Option.some.injEq] at h
    have hp := List.mem_of_find?_eq_some hf
    have hall : ∀ q ∈ LANGUAGE_MAP, q.2.length = 2 := by decide
    rw [← h]
    exact hall p hp

/-- C8 counterexample: a record whose MARC language value is present but
unmapped (`"klingon"`) produces a work submission record with **no**
language code at all — not the default `"en"`: the `else` that sets `"en"`
belongs to the field-absent case only. -/
theorem unmapped_language_not_defaulted :
    (buildWorkDict id "u" ⟨[], "", [], [], [], [], "", "klingon", ""⟩
        []).language_code = none
    ∧ (buildWorkDict id "u" ⟨[], "", [], [], [], [], "", "klingon", ""⟩
        []).language_code ≠ some "en" := by
  constructor
  · rfl
  · intro hc
    rw [show (buildWorkDict id "u" ⟨[], "", [], [], [], [], "", "klingon", ""⟩
        []).language_code = none from rfl] at hc
    cases hc

/-- C8 (amended): the work submission record's language code is the literal
`"en"` exactly when the MARC language value is absent; when the value is
present and mapped, the record carries the encoded two-letter ISO 639-1 code
from `LANGUAGE_MAP`; when the value is present but unmapped, the record
carries no language code (it is not defaulted to `"en"`). -/
theorem language_code_cases (encode : String → String) (url : String)
    (rec : RecStruct) (extIds : List (String × String)) :
    (rec.language = "" →
      (buildWorkDict encode url rec extIds).language_code = some "en")
    ∧ (∀ c, rec.language ≠ "" →
        assocGet LANGUAGE_MAP (pyStrip (pyLower rec.language)) = some c →
        (buildWorkDict encode url rec extIds).language_code = some (encode c)
        ∧ c.length = 2)
    ∧ (rec.language ≠ "" →
        assocGet LANGUAGE_MAP (pyStrip (pyLower rec.language)) = none →
        (buildWorkDict encode url rec extIds).language_code = none) := by
  refine ⟨?_, ?_, ?_⟩
  · intro h
    simp [buildWorkDict, languageCode, h]
  · intro c h hm
    exact ⟨by simp [buildWorkDict, languageCode, h, hm],
      LANGUAGE_MAP_code_length _ c hm⟩
  · intro h hm
    simp [buildWorkDict, languageCode, h, hm]

/-- C8 witness: a record with no language field gets language code `"en"`. -/
theorem language_code_cases_witness :
    (buildWorkDict id "u" ⟨[], "", [], [], [], [], "", "", ""⟩
        []).language_code = some "en" :=
  (language_code_cases id "u" ⟨[], "", [], [], [], [], "", "", ""⟩ []).1 rfl

/-! ## C10 — the day component's four-digit pattern -/

/-- A two-character string never matches the day pattern `[012]\d{3}$`. -/
theorem reMatchDay_not_two (s : String) (h : s.length = 2) :
    reMatchDay s = false := by
  obtain ⟨a, b, hab⟩ : ∃ a b, s.toList = [a, b] :=
    List.length_eq_two.mp (by simpa using h)
  unfold reMatchDay
  rw [hab]

/-- The `day` entry of `_get_date_from_field_number` comes from the third
parsed component and only when it matches `[012]\d{3}$`. -/
theorem getDateFromFieldNumber_day_pattern (arr : List String)
    (dd : DateDict) (d : String) (h : getDateFromFieldNumber arr = some dd)
    (hd : dd.day = some d) :
    arr.get? 2 = some d ∧ reMatchDay d = true := by
  rcases arr with - | ⟨y, - | ⟨m, - | ⟨d2, rest3⟩⟩⟩
  · simp [getDateFromFieldNumber] at h
  · cases hY : reMatchYear y
    · simp [getDateFromFieldNumber, hY] at h
    · simp only [getDateFromFieldNumber, hY, if_true,
        Option.some.injEq] at h
      rw [← h] at hd
      simp at hd
  · cases hY : reMatchYear y
    · simp [getDateFromFieldNumber, hY] at h
    · cases hM : reMatchMonth m
      · simp only [getDateFromFieldNumber, hY, hM, Bool.false_eq_true,
          if_true, if_false, Option.some.injEq] at h
        rw [← h] at hd
        simp at hd
      · simp only [getDateFromFieldNumber, hY, hM, if_true,
          Option.some.injEq] at h
        rw [← h] at hd
        simp at hd
  · cases hY : reMatchYear y
    · simp [getDateFromFieldNumber, hY] at h
    · cases hM : reMatchMonth m
      · simp only [getDateFromFieldNumber, hY, hM, Bool.false_eq_true,
          if_true, if_false, Option.some.injEq] at h
        rw [← h] at hd
        simp at hd
      · cases hD : reMatchDay d2
        · simp only [getDateFromFieldNumber, hY, hM, hD, Bool.false_eq_true,
            if_true, if_false, Option.some.injEq] at h
          rw [← h] at hd
          simp at hd
        · simp only [getDateFromFieldNumber, hY, hM, hD, if_true,
            Option.some.injEq] at h
          rw [← h] at hd
          simp only [Option.some.injEq] at hd
          subst hd
          exact ⟨rfl, hD⟩

/-- C10: the `day` key is produced only when the third parsed date component
matches `[012]\d{3}$`; any day entry reaching a work submission record's
publication date therefore matches that four-digit pattern, and a
conventional two-digit day value can never appear (two-character strings
never match the pattern). -/
theorem day_in_work_requires_pattern :
    (∀ arr dd d, getDateFromFieldNumber arr = some dd → dd.day = some d →
        arr.get? 2 = some d ∧ reMatchDay d = true)
    ∧ (∀ (encode : String → String) url rec extIds dd d,
        (buildWorkDict encode url rec extIds).publication_date = some dd →
        dd.day = some d → reMatchDay d = true)
    ∧ (∀ s : String, s.length = 2 → reMatchDay s = false) := by
  refine ⟨getDateFromFieldNumber_day_pattern, ?_, reMatchDay_not_two⟩
  intro encode url rec extIds dd d h hd
  have hpd : getPublicationDate rec = some dd := h
  unfold getPublicationDate at hpd
  cases h1 : getDateFromFieldNumber rec.dateArr269 with
  | some d1 =>
    rw [h1] at hpd
    injection hpd with h'
    subst h'
    exact (getDateFromFieldNumber_day_pattern _ _ _ h1 hd).2
  | none =>
    rw [h1] at hpd
    cases h2 : getDateFromFieldNumber rec.dateArr260 with
    | some d2 =>
      rw [h2] at hpd
      injection hpd with h'
      subst h'
      exact (getDateFromFieldNumber_day_pattern _ _ _ h2 hd).2
    | none =>
      rw [h2] at hpd
      cases h3 : getDateFromFieldNumber rec.dateArr502 with
      | some d3 =>
        rw [h3] at hpd
        injection hpd with h'
        subst h'
        exact (getDateFromFieldNumber_day_pattern _ _ _ h3 hd).2
      | none =>
        rw [h3] at hpd
        by_cases hy : rec.year773 ≠ "" ∧ reMatchYear rec.year773 = true
        · rw [if_pos hy] at hpd
          injection hpd with h'
          subst h'
          simp at hd
        · rw [if_neg hy] at hpd
          exact absurd hpd (by simp)

/-- C10 witness: a concrete record whose `269 $c` date array is
`["1999", "01", "0102"]` yields a work submission record with day `"0102"`,
which matches the four-digit pattern. -/
theorem day_in_work_requires_pattern_witness :
    reMatchDay "0102" = true ∧
    (buildWorkDict id "u" ⟨[], "", [], ["1999", "01", "0102"], [], [], "", "", ""⟩
        []).publication_date
      = some ⟨some "1999", some "01", some "0102"⟩ :=
  ⟨day_in_work_requires_pattern.2.1 id "u"
      ⟨[], "", [], ["1999", "01", "0102"], [], [], "", "", ""⟩ []
      ⟨some "1999", some "01", some "0102"⟩ "0102" rfl rfl,
    rfl⟩

end Orcid
